import Mathlib

/-!
Verification of the cashmeremcp load-test harness.

The repository contains three near-duplicate harness variants:
  * src/load_client.py, test_requests_per_second  (duration mode),
  * src/load_test.py, load_test                   (count mode),
  * src/load_client.py, load_test                 (count mode, counting
    REQUESTS_PER_CALL = 5 protocol requests per client call).
The shallow embedding below translates the retry loop, the statistics
dictionary, the driver control loops, the semaphore discipline and the
report computations of those scripts.  Latencies and wall-clock durations
are modelled as exact rationals; the external RPC call is an opaque
capability, modelled as a function from the attempt index to a result or
an error classification string.
-/

/-- The mutable stats dictionary created at the start of every run
(load_test.py lines 34-43, load_client.py lines 27-36 and 194-203).
The error_counts dict is modelled as an association list. -/
structure Stats where
  total_requests : Nat
  successful_requests : Nat
  failed_requests : Nat
  error_counts : List (String × Nat)
  latencies : List ℚ
  active_requests : Nat
  max_concurrent : Nat
deriving DecidableEq, Repr

/-- The initial stats dictionary: every counter zero, every list empty. -/
def stats_init : Stats :=
  { total_requests := 0, successful_requests := 0, failed_requests := 0,
    error_counts := [], latencies := [], active_requests := 0, max_concurrent := 0 }

/-- Lookup in the error_counts dict: stats[error_counts].get(name, 0). -/
def ecGet (ec : List (String × Nat)) (k : String) : Nat :=
  match ec with
  | [] => 0
  | (a, n) :: rest => if a = k then n else ecGet rest k

/-- stats[error_counts][name] = stats[error_counts].get(name, 0) + 1. -/
def ecInc (ec : List (String × Nat)) (k : String) : List (String × Nat) :=
  match ec with
  | [] => [(k, 1)]
  | (a, n) :: rest => if a = k then (a, n + 1) :: rest else (a, n) :: ecInc rest k

lemma ecGet_ecInc_self (ec : List (String × Nat)) (k : String) :
    ecGet (ecInc ec k) k = ecGet ec k + 1 := by
  induction ec with
  | nil => simp [ecGet, ecInc]
  | cons p rest ih =>
    obtain ⟨a, n⟩ := p
    by_cases h : a = k
    · simp [ecGet, ecInc, h]
    · simp [ecGet, ecInc, h, ih]

/-- Terminal result of one unit of work (the body of make_request):
either the call succeeded on some attempt, or every attempt failed.
The fields record the measured latency, the backoff sleeps that were
performed, the number of executor invocations, and (for exhaustion)
the last error classification. -/
inductive RetryResult where
  | succeeded (latency : ℚ) (sleeps : List ℚ) (invocations : Nat)
  | exhausted (last_error : Option String) (sleeps : List ℚ) (invocations : Nat)
deriving DecidableEq, Repr

/-- The list of backoff sleeps performed from retry index r for n further
failures: 0.1 * 2 ^ r, 0.1 * 2 ^ (r + 1), ... (seconds, as in
`asyncio.sleep(0.1 * (2 ** (retries - 1)))`). -/
def backoff_seq : Nat → Nat → List ℚ
  | _, 0 => []
  | r, n + 1 => (1 / 10 : ℚ) * 2 ^ r :: backoff_seq (r + 1) n

lemma backoff_seq_length : ∀ n r, (backoff_seq r n).length = n := by
  intro n
  induction n with
  | zero => intro r; rfl
  | succ n ih => intro r; simp [backoff_seq, ih]

lemma backoff_seq_getD :
    ∀ n r j, j < n → (backoff_seq r n).getD j 0 = (1 / 10 : ℚ) * 2 ^ (r + j) := by
  intro n
  induction n with
  | zero => intro r j h; omega
  | succ n ih =>
    intro r j hj
    cases j with
    | zero => simp [backoff_seq]
    | succ j =>
      have h1 : (backoff_seq r (n + 1)).getD (j + 1) 0 = (backoff_seq (r + 1) n).getD j 0 := by
        simp [backoff_seq]
      rw [h1, ih (r + 1) j (by omega)]
      have h2 : r + 1 + j = r + (j + 1) := by omega
      rw [h2]

/-- The retry loop of make_request (src/load_test.py lines 68-83):

    while retries <= max_retries:
        try:
            ... await async_search_publications(query) ...  (success: return)
        except Exception as e:
            last_error = e
            retries += 1
            if retries <= max_retries:
                await asyncio.sleep(0.1 * (2 ** (retries - 1)))
            continue

`call i` is the outcome of the executor invocation made while
retries = i: `Except.ok latency` for a successful call with its measured
latency, `Except.error e` for an exception whose class name is e. -/
def retry_loop (call : Nat → Except String ℚ) (max_retries retries : Nat)
    (last_error : Option String) (sleeps : List ℚ) : RetryResult :=
  if h : retries ≤ max_retries then
    match call retries with
    | Except.ok lat => RetryResult.succeeded lat sleeps (retries + 1)
    | Except.error e =>
      if retries + 1 ≤ max_retries then
        retry_loop call max_retries (retries + 1) (some e)
          (sleeps ++ [(1 / 10 : ℚ) * 2 ^ retries])
      else
        RetryResult.exhausted (some e) sleeps (retries + 1)
  else
    RetryResult.exhausted last_error sleeps retries
termination_by max_retries + 1 - retries
decreasing_by simp_wf; omega

/-- The retry loop of make_request in src/load_client.py, load_test
(lines 228-250).  The except block there starts with an unconditional
`raise` (line 244), so the first exception propagates out of
make_request and the retry/bookkeeping code below the raise is
unreachable; a successful first call returns as usual. -/
def retry_loop_lc (call : Nat → Except String ℚ) (max_retries : Nat) :
    Except String RetryResult :=
  if 0 ≤ max_retries then
    match call 0 with
    | Except.ok lat => Except.ok (RetryResult.succeeded lat [] 1)
    | Except.error e => Except.error e
  else
    Except.ok (RetryResult.exhausted none [] 0)

/-- Folding one terminal unit-of-work result into the stats dictionary:
on success, append the latency and bump successful_requests
(load_test.py lines 73-75); on exhaustion, bump failed_requests and the
error count of the last error class (load_test.py lines 86-90). -/
def apply_result (s : Stats) (r : RetryResult) : Stats :=
  match r with
  | RetryResult.succeeded lat _ _ =>
    { s with latencies := s.latencies ++ [lat],
             successful_requests := s.successful_requests + 1 }
  | RetryResult.exhausted e _ _ =>
    { s with failed_requests := s.failed_requests + 1,
             error_counts := ecInc s.error_counts (e.getD "NoneType") }

/-- The stats accumulated by a run whose admitted units of work finished
with the given list of terminal results. -/
def run_units (rs : List RetryResult) : Stats :=
  rs.foldl apply_result stats_init

lemma foldl_apply_result_counts :
    ∀ (rs : List RetryResult) (s : Stats),
      (rs.foldl apply_result s).successful_requests
        + (rs.foldl apply_result s).failed_requests
      = s.successful_requests + s.failed_requests + rs.length := by
  intro rs
  induction rs with
  | nil => intro s; simp
  | cons r rest ih =>
    intro s
    rw [List.foldl_cons, ih]
    cases r <;> simp [apply_result] <;> omega

lemma foldl_apply_result_latencies :
    ∀ (rs : List RetryResult) (s : Stats),
      (rs.foldl apply_result s).latencies.length + s.successful_requests
      = (rs.foldl apply_result s).successful_requests + s.latencies.length := by
  intro rs
  induction rs with
  | nil => intro s; simp; omega
  | cons r rest ih =>
    intro s
    rw [List.foldl_cons]
    cases r with
    | succeeded lat sl inv =>
      have := ih { s with latencies := s.latencies ++ [lat],
                          successful_requests := s.successful_requests + 1 }
      simp [apply_result] at this ⊢
      omega
    | exhausted e sl inv =>
      have := ih { s with failed_requests := s.failed_requests + 1,
                          error_counts := ecInc s.error_counts (e.getD "NoneType") }
      simp [apply_result] at this ⊢
      omega

lemma run_units_counts (rs : List RetryResult) :
    (run_units rs).successful_requests + (run_units rs).failed_requests = rs.length := by
  have := foldl_apply_result_counts rs stats_init
  simpa [run_units, stats_init] using this

lemma run_units_latencies (rs : List RetryResult) :
    (run_units rs).latencies.length = (run_units rs).successful_requests := by
  have := foldl_apply_result_latencies rs stats_init
  simpa [run_units, stats_init] using this

lemma retry_loop_succeeds_from (call : Nat → Except String ℚ) (m k : Nat) (lat : ℚ)
    (errs : Nat → String) (hk : k ≤ m)
    (hf : ∀ i, i < k → call i = Except.error (errs i))
    (hs : call k = Except.ok lat) :
    ∀ n r le sl, k - r = n → r ≤ k →
      retry_loop call m r le sl
        = RetryResult.succeeded lat (sl ++ backoff_seq r n) (k + 1) := by
  intro n
  induction n with
  | zero =>
    intro r le sl hn hr
    have hrk : r = k := by omega
    subst hrk
    rw [retry_loop]
    simp only [dif_pos (show r ≤ m by omega)]
    rw [hs]
    simp [backoff_seq]
  | succ n ih =>
    intro r le sl hn hr
    have hrk : r < k := by omega
    rw [retry_loop]
    simp only [dif_pos (show r ≤ m by omega)]
    rw [hf r hrk]
    simp only [if_pos (show r + 1 ≤ m by omega)]
    rw [ih (r + 1) (some (errs r)) (sl ++ [(1 / 10 : ℚ) * 2 ^ r]) (by omega) (by omega)]
    rw [List.append_assoc]
    rfl

lemma retry_loop_exhausts_from (call : Nat → Except String ℚ) (m : Nat)
    (errs : Nat → String)
    (hf : ∀ i, i ≤ m → call i = Except.error (errs i)) :
    ∀ n r le sl, m - r = n → r ≤ m →
      retry_loop call m r le sl
        = RetryResult.exhausted (some (errs m)) (sl ++ backoff_seq r n) (m + 1) := by
  intro n
  induction n with
  | zero =>
    intro r le sl hn hr
    have hrm : r = m := by omega
    subst hrm
    rw [retry_loop]
    simp only [dif_pos (show r ≤ r by omega)]
    rw [hf r (by omega)]
    simp only [if_neg (show ¬(r + 1 ≤ r) by omega)]
    simp [backoff_seq]
  | succ n ih =>
    intro r le sl hn hr
    have hrm : r < m := by omega
    rw [retry_loop]
    simp only [dif_pos (show r ≤ m by omega)]
    rw [hf r (by omega)]
    simp only [if_pos (show r + 1 ≤ m by omega)]
    rw [ih (r + 1) (some (errs r)) (sl ++ [(1 / 10 : ℚ) * 2 ^ r]) (by omega) (by omega)]
    rw [List.append_assoc]
    rfl

/-- Driver bookkeeping: stats[total_requests] together with the size of
the task set.  Other stats fields are not touched by the control loop. -/
structure DriverState where
  total : Nat
  outstanding : Nat
deriving DecidableEq, Repr

/-- The inner replacement loop of the count-mode drivers
(load_test.py lines 117-122, load_client.py lines 284-289):

    for _ in range(len(done)):
        if stats[total_requests] < target:
            stats[total_requests] += per
            task = asyncio.create_task(make_request()); tasks.add(task)

per = 1 in load_test.py and per = REQUESTS_PER_CALL = 5 in
load_client.py; target is num_requests resp. num_calls * 5. -/
def admit_loop (target per : Nat) : Nat → DriverState → DriverState
  | 0, s => s
  | d + 1, s =>
    if s.total < target then
      admit_loop target per d ⟨s.total + per, s.outstanding + 1⟩
    else
      admit_loop target per d s

/-- The initial batch loop of the count-mode drivers
(load_test.py lines 101-107, load_client.py lines 268-274):

    for _ in range(n):
        if stats[total_requests] >= target: break
        stats[total_requests] += per
        task = asyncio.create_task(make_request()); tasks.add(task)

where n = min(concurrency * 2, num_requests)  resp.
      n = min(concurrency * 2, num_calls). -/
def initial_batch_loop (target per : Nat) : Nat → DriverState → DriverState
  | 0, s => s
  | n + 1, s =>
    if target ≤ s.total then s
    else initial_batch_loop target per n ⟨s.total + per, s.outstanding + 1⟩

/-- The outer replacement loop of the count-mode drivers
(load_test.py lines 110-122, load_client.py lines 277-289):

    while stats[total_requests] < target and tasks:
        done, pending = await asyncio.wait(tasks, return_when=FIRST_COMPLETED)
        (admit replacements for the completed tasks)

The environment schedule ds gives, for each iteration, how many tasks
the event loop reports as completed; asyncio.wait with FIRST_COMPLETED
returns between 1 and the number of outstanding tasks, which the model
enforces by clamping.  The result is none when the supplied schedule is
exhausted while the loop condition still holds. -/
def replace_loop (target per : Nat) : List Nat → DriverState → Option DriverState
  | [], s => if s.total < target ∧ 0 < s.outstanding then none else some s
  | d :: rest, s =>
    if s.total < target ∧ 0 < s.outstanding then
      replace_loop target per rest
        (admit_loop target per (min (max d 1) s.outstanding)
          ⟨s.total, s.outstanding - min (max d 1) s.outstanding⟩)
    else some s

/-- The count-mode driver of src/load_test.py (lines 95-126):
initial batch of min(concurrency * 2, num_requests) tasks, each
admission adding 1 to total_requests, then the replacement loop up to
target num_requests. -/
def lt_count_driver (num_requests c : Nat) (ds : List Nat) : Option DriverState :=
  replace_loop num_requests 1 ds
    (initial_batch_loop num_requests 1 (min (c * 2) num_requests) ⟨0, 0⟩)

/-- The count-mode driver of src/load_client.py, load_test
(lines 262-289): initial batch of min(concurrency * 2, num_calls)
tasks, each admission adding REQUESTS_PER_CALL = 5 to total_requests,
replacement loop up to target num_calls * 5. -/
def lc_count_driver (num_calls c : Nat) (ds : List Nat) : Option DriverState :=
  replace_loop (num_calls * 5) 5 ds
    (initial_batch_loop (num_calls * 5) 5 (min (c * 2) num_calls) ⟨0, 0⟩)

lemma admit_loop_spec (target per : Nat) (hper : 0 < per) (hdvd : per ∣ target) :
    ∀ d s, per ∣ s.total → s.total ≤ target →
      per ∣ (admit_loop target per d s).total ∧
      (admit_loop target per d s).total ≤ target ∧
      s.outstanding ≤ (admit_loop target per d s).outstanding ∧
      (0 < d → s.total < target →
        s.outstanding < (admit_loop target per d s).outstanding) := by
  intro d
  induction d with
  | zero =>
    intro s h1 h2
    exact ⟨h1, h2, le_refl _, by omega⟩
  | succ d ih =>
    intro s h1 h2
    by_cases hlt : s.total < target
    · have hstep : s.total + per ≤ target := by
        have hd : per ∣ target - s.total := Nat.dvd_sub' hdvd h1
        have hpos : 0 < target - s.total := by omega
        have := Nat.le_of_dvd hpos hd
        omega
      have h1' : per ∣ s.total + per := Dvd.dvd.add h1 (dvd_refl per)
      have hrec := ih ⟨s.total + per, s.outstanding + 1⟩ h1' hstep
      simp only [admit_loop, if_pos hlt]
      refine ⟨hrec.1, hrec.2.1, ?_, ?_⟩
      · have := hrec.2.2.1; simp at this; omega
      · intro _ _; have := hrec.2.2.1; simp at this; omega
    · have hrec := ih s h1 h2
      simp only [admit_loop, if_neg hlt]
      exact ⟨hrec.1, hrec.2.1, hrec.2.2.1, by intro _ hc; omega⟩

lemma initial_batch_loop_spec (target per : Nat) (hper : 0 < per) (hdvd : per ∣ target) :
    ∀ n s, per ∣ s.total → s.total ≤ target →
      per ∣ (initial_batch_loop target per n s).total ∧
      (initial_batch_loop target per n s).total ≤ target ∧
      s.outstanding ≤ (initial_batch_loop target per n s).outstanding ∧
      (0 < n → s.total < target →
        s.outstanding < (initial_batch_loop target per n s).outstanding) := by
  intro n
  induction n with
  | zero =>
    intro s h1 h2
    exact ⟨h1, h2, le_refl _, by omega⟩
  | succ n ih =>
    intro s h1 h2
    by_cases hge : target ≤ s.total
    · simp only [initial_batch_loop, if_pos hge]
      exact ⟨h1, h2, le_refl _, by intro _ hc; omega⟩
    · have hlt : s.total < target := by omega
      have hstep : s.total + per ≤ target := by
        have hd : per ∣ target - s.total := Nat.dvd_sub' hdvd h1
        have hpos : 0 < target - s.total := by omega
        have := Nat.le_of_dvd hpos hd
        omega
      have h1' : per ∣ s.total + per := Dvd.dvd.add h1 (dvd_refl per)
      have hrec := ih ⟨s.total + per, s.outstanding + 1⟩ h1' hstep
      simp only [initial_batch_loop, if_neg hge]
      refine ⟨hrec.1, hrec.2.1, ?_, ?_⟩
      · have := hrec.2.2.1; simp at this; omega
      · intro _ _; have := hrec.2.2.1; simp at this; omega

lemma replace_loop_total (target per : Nat) (hper : 0 < per) (hdvd : per ∣ target) :
    ∀ ds s, per ∣ s.total → s.total ≤ target →
      (s.total < target → 0 < s.outstanding) →
      ∀ s', replace_loop target per ds s = some s' → s'.total = target := by
  intro ds
  induction ds with
  | nil =>
    intro s h1 h2 h3 s' heq
    by_cases hc : s.total < target ∧ 0 < s.outstanding
    · simp [replace_loop, hc] at heq
    · simp only [replace_loop, if_neg hc, Option.some.injEq] at heq
      subst heq
      by_cases hlt : s.total < target
      · exact absurd ⟨hlt, h3 hlt⟩ hc
      · omega
  | cons d rest ih =>
    intro s h1 h2 h3 s' heq
    by_cases hc : s.total < target ∧ 0 < s.outstanding
    · simp only [replace_loop, if_pos hc] at heq
      have hdone : 0 < min (max d 1) s.outstanding := by
        have := hc.2; omega
      have hspec := admit_loop_spec target per hper hdvd
        (min (max d 1) s.outstanding)
        ⟨s.total, s.outstanding - min (max d 1) s.outstanding⟩ h1 h2
      refine ih _ hspec.1 hspec.2.1 ?_ s' heq
      intro _
      have := hspec.2.2.2 hdone hc.1
      omega
    · simp only [replace_loop, if_neg hc, Option.some.injEq] at heq
      subst heq
      by_cases hlt : s.total < target
      · exact absurd ⟨hlt, h3 hlt⟩ hc
      · omega

/-- Concurrency-controller state: permits still available in the
asyncio.Semaphore, the active_requests counter, and the running
max_concurrent maximum (make_request, load_test.py lines 62-66 and 92-93,
identically load_client.py lines 55-59 and 87-88). -/
structure SemState where
  avail : Nat
  active : Nat
  maxc : Nat
deriving DecidableEq, Repr

/-- Atomic transitions of one unit of work under the cooperative
scheduler.  `enter` is acquiring the semaphore followed without any
suspension point by `active_requests += 1` and the max_concurrent
update; it requires a free permit.  `leave` is the semaphore release at
the end of the `async with` block followed without suspension by the
finally-clause decrement `active_requests = max(0, active_requests - 1)`.
`cancelDec` is the finally-clause decrement of a task cancelled while
still waiting to acquire, which never obtained nor releases a permit
(Nat subtraction models the max(0, ...) clamp). -/
inductive SemStep : SemState → SemState → Prop where
  | enter (avail active maxc : Nat) (h : 0 < avail) :
      SemStep ⟨avail, active, maxc⟩ ⟨avail - 1, active + 1, max maxc (active + 1)⟩
  | leave (avail active maxc : Nat) (h : 0 < active) :
      SemStep ⟨avail, active, maxc⟩ ⟨avail + 1, active - 1, maxc⟩
  | cancelDec (avail active maxc : Nat) :
      SemStep ⟨avail, active, maxc⟩ ⟨avail, active - 1, maxc⟩

/-- States reachable during a run whose semaphore was created with
max_concurrency permits (asyncio.Semaphore(concurrency)), starting from
active_requests = 0 and max_concurrent = 0. -/
def SemReachable (max_concurrency : Nat) (s : SemState) : Prop :=
  Relation.ReflTransGen SemStep ⟨max_concurrency, 0, 0⟩ s

/-- What the loader finds at the query-source path (load_test.py lines
48-53).  The try block runs open(), json.load and a subscript, and the
except clause catches only FileNotFoundError, JSONDecodeError and
KeyError, so each possible input falls in one of these cases:
  * missing — open() raises FileNotFoundError (caught);
  * unreadable err — open()/read raises some other error, e.g.
    IsADirectoryError for a directory path or UnicodeDecodeError for
    undecodable bytes (NOT caught; err names the exception class);
  * invalidJson — json.load raises JSONDecodeError (caught);
  * nonObjectJson — the file parses but its top level is not a JSON
    object (e.g. an array), so the subscript with a string key raises
    TypeError (NOT caught);
  * missingKey — the top level is an object without the search_queries
    key, so the subscript raises KeyError (caught);
  * presentNonList v — the key is present but its value is not an
    array of strings (no exception in the loader: the value, rendered
    opaquely as v, is assigned to query_pool unchanged);
  * present qs — the key is present holding an array of strings. -/
inductive QuerySource where
  | missing
  | unreadable (err : String)
  | invalidJson
  | nonObjectJson
  | missingKey
  | presentNonList (value : String)
  | present (queries : List String)
deriving DecidableEq, Repr

/-- The value bound to query_pool when the loader finishes without an
exception: an array of strings, or (when the file supplied something
else under the key) an arbitrary other JSON value, kept opaque. -/
inductive PoolValue where
  | list (queries : List String)
  | other (value : String)
deriving DecidableEq, Repr

/-- The fallback pool [f"query {i}" for i in range(100)]. -/
def fallback_pool : List String :=
  (List.range 100).map fun i => "query " ++ toString i

/-- The query pool loader (load_test.py lines 48-53, identically
load_client.py lines 41-46 and 208-213):

    try:
        with open("sample_search_queries.json") as f:
            query_pool = pyjson.load(f)["search_queries"]
    except (FileNotFoundError, pyjson.JSONDecodeError, KeyError) as e:
        print(f"Warning: ...")
        query_pool = [f"query {i}" for i in range(100)]

Except.error models an exception escaping the try/except uncaught; the
Bool is true when the non-fatal fallback warning was printed. -/
def load_query_pool : QuerySource → Except String (PoolValue × Bool)
  | QuerySource.missing => Except.ok (PoolValue.list fallback_pool, true)
  | QuerySource.unreadable err => Except.error err
  | QuerySource.invalidJson => Except.ok (PoolValue.list fallback_pool, true)
  | QuerySource.nonObjectJson => Except.error "TypeError"
  | QuerySource.missingKey => Except.ok (PoolValue.list fallback_pool, true)
  | QuerySource.presentNonList v => Except.ok (PoolValue.other v, false)
  | QuerySource.present qs => Except.ok (PoolValue.list qs, false)

/-- Requests-per-second of the duration-mode report
(load_client.py line 137):
rps = stats[total_requests] / elapsed if elapsed > 0 else 0. -/
def rps_duration_report (s : Stats) (elapsed : ℚ) : ℚ :=
  if 0 < elapsed then (s.total_requests : ℚ) / elapsed else 0

/-- Requests-per-second of the load_test.py count-mode report (lines
167-168): printed only when stats[latencies] is nonempty, and computed
as len(stats[latencies]) / total_time. -/
def rps_count_report_lt (s : Stats) (total_time : ℚ) : Option ℚ :=
  if s.latencies = [] then none
  else some ((s.latencies.length : ℚ) / total_time)

/-- Requests-per-second of the load_client.py count-mode report (lines
334-335): printed only when stats[latencies] is nonempty, and computed
as stats[total_requests] / total_time. -/
def rps_count_report_lc (s : Stats) (total_time : ℚ) : Option ℚ :=
  if s.latencies = [] then none
  else some ((s.total_requests : ℚ) / total_time)

/-- Python sorted(): ascending, stable; on rational keys any sorted
permutation has the same element sequence. -/
def sortedLats (l : List ℚ) : List ℚ :=
  List.insertionSort (fun a b => a ≤ b) l

/-- The percentile block of the count-mode reports (load_test.py lines
167-176, identically load_client.py lines 334-343): none when
stats[latencies] is empty, otherwise p50/p95 indexed into the sorted
list, and p99 likewise but 0.0 unless at least 100 samples exist. -/
def percentile_report_count (lats : List ℚ) : Option (ℚ × ℚ × ℚ) :=
  if lats = [] then none
  else
    some ((sortedLats lats).getD ((sortedLats lats).length / 2) 0,
      (sortedLats lats).getD ((sortedLats lats).length * 95 / 100) 0,
      if 100 ≤ (sortedLats lats).length then
        (sortedLats lats).getD ((sortedLats lats).length * 99 / 100) 0
      else 0)

/-- The percentile block of the duration-mode report (load_client.py
lines 159-167): computed only when at least 10 samples exist, and then
p50, p95 and p99 are all reported, with no further guard on p99. -/
def percentile_report_duration (lats : List ℚ) : Option (ℚ × ℚ × ℚ) :=
  if 10 ≤ lats.length then
    some ((sortedLats lats).getD ((sortedLats lats).length / 2) 0,
      (sortedLats lats).getD ((sortedLats lats).length * 95 / 100) 0,
      (sortedLats lats).getD ((sortedLats lats).length * 99 / 100) 0)
  else none

/-- Modelled from the spec wording of the percentile formula: sort the
latencies ascending and index at floor(N * percentile), the percentile
given as num / den.  Used to compare the code indexing against the
formula of the specification. -/
def percentile_spec_floor (lats : List ℚ) (num den : Nat) : ℚ :=
  (sortedLats lats).getD
    (Nat.floor ((lats.length : ℚ) * ((num : ℚ) / (den : ℚ)))) 0

lemma floor_mul_ratio (N num den : Nat) (hden : 0 < den) :
    Nat.floor ((N : ℚ) * ((num : ℚ) / (den : ℚ))) = N * num / den := by
  have h1 : (N : ℚ) * ((num : ℚ) / (den : ℚ)) = ((N * num : Nat) : ℚ) / ((den : Nat) : ℚ) := by
    push_cast
    ring
  rw [h1, Nat.floor_div_nat, Nat.floor_natCast]

lemma sortedLats_length (l : List ℚ) : (sortedLats l).length = l.length :=
  List.length_insertionSort _ l

/-- Outcome of the success-rate line of the duration-mode report
(load_client.py lines 144-148).  The branch on stats[total_requests]
selects between the rate f-string and the text "No requests made"; when
the f-string is evaluated with successful + failed equal to zero the
division raises ZeroDivisionError, modelled as divisionByZero. -/
inductive RateReport where
  | noRequests
  | divisionByZero
  | rate (q : ℚ)
deriving DecidableEq, Repr

def success_rate_report (s : Stats) : RateReport :=
  if 0 < s.total_requests then
    if s.successful_requests + s.failed_requests = 0 then RateReport.divisionByZero
    else RateReport.rate ((s.successful_requests : ℚ)
      / ((s.successful_requests : ℚ) + (s.failed_requests : ℚ)))
  else RateReport.noRequests

/-- One iteration of the duration-mode admission loop (load_client.py
lines 99-112) in an environment where no task ever completes: the set
of completed tasks is empty, and a new task is admitted (adding
REQUESTS_PER_CALL = 5 to total_requests) while fewer than
max_concurrent * 2 tasks are outstanding.  The pair is (stats, |tasks|). -/
def duration_tick (max_concurrent : Nat) (p : Stats × Nat) : Stats × Nat :=
  if p.2 < max_concurrent * 2 then
    ({ p.1 with total_requests := p.1.total_requests + 5 }, p.2 + 1)
  else p

/-- The duration-mode admission loop run for a given number of ticks
with no task completing. -/
def duration_drive (max_concurrent : Nat) : Nat → Stats × Nat
  | 0 => (stats_init, 0)
  | t + 1 => duration_tick max_concurrent (duration_drive max_concurrent t)

/-- asyncio.Semaphore(value) raises ValueError for a negative value
(load_test.py line 46 with the computed concurrency). -/
def semaphore_make (value : Int) : Except String Unit :=
  if value < 0 then Except.error "ValueError" else Except.ok ()

/-- load_test.py line 32 (identically load_client.py line 192):
concurrency = min(concurrency or num_requests, 100).  A missing
argument and an argument equal to 0 are both falsy, so both fall back
to num_requests. -/
def effective_concurrency (requested : Option Int) (num_requests : Int) : Int :=
  min (match requested with
       | none => num_requests
       | some v => if v = 0 then num_requests else v) 100

/-- The configuration phase of load_test.py (lines 28-46): compute the
effective concurrency, then create the semaphore; a ValueError from the
semaphore constructor propagates before any task is created. -/
def load_test_config (requested : Option Int) (num_requests : Int) : Except String Int :=
  match semaphore_make (effective_concurrency requested num_requests) with
  | Except.error e => Except.error e
  | Except.ok _ => Except.ok (effective_concurrency requested num_requests)

/-- The count-mode run of load_test.py: configuration phase, then the
driver control loop; a configuration error aborts before any admission. -/
def load_test_run (requested : Option Int) (num_requests : Nat) (ds : List Nat) :
    Except String (Option DriverState) :=
  match load_test_config requested (num_requests : Int) with
  | Except.error e => Except.error e
  | Except.ok c => Except.ok (lt_count_driver num_requests c.toNat ds)

/-- Stats as assembled at the end of a run: the fold of the terminal
unit results, with total_requests as set by the driver admission loop. -/
def run_stats (total : Nat) (rs : List RetryResult) : Stats :=
  { run_units rs with total_requests := total }

/-- Concrete end-of-run stats refuting claim C1 for the duration mode:
5 requests dispatched, 1 successful. -/
def c1_demo_stats : Stats :=
  { stats_init with
    total_requests := 5,
    successful_requests := 1,
    failed_requests := 4,
    latencies := [1] }

/-- Claim C1 counterexample: in duration mode the reported
requests_per_second is total_requests / elapsed, not
successful / elapsed as the claim states — at total = 5, successful = 1,
elapsed = 1 the report gives 5 while the claim demands 1. -/
theorem c1_counterexample :
    rps_duration_report c1_demo_stats 1 = 5 ∧
    (c1_demo_stats.successful_requests : ℚ) / 1 = 1 ∧
    (5 : ℚ) ≠ 1 := by
  refine ⟨?_, ?_, by norm_num⟩
  · norm_num [rps_duration_report, c1_demo_stats, stats_init]
  · norm_num [c1_demo_stats, stats_init]

/-- Claim C1 (amended): for every completed run, the duration-mode
report computes requests_per_second as total_dispatched / elapsed;
the count-mode report of load_test.py computes successful / elapsed
(as the length of the latency list, one entry per success); and the
count-mode report of load_client.py computes total_dispatched / elapsed. -/
theorem c1_amended (total : Nat) (rs : List RetryResult) (elapsed : ℚ)
    (he : 0 < elapsed) (hne : (run_stats total rs).latencies ≠ []) :
    rps_duration_report (run_stats total rs) elapsed = (total : ℚ) / elapsed ∧
    rps_count_report_lt (run_stats total rs) elapsed
      = some (((run_stats total rs).successful_requests : ℚ) / elapsed) ∧
    rps_count_report_lc (run_stats total rs) elapsed = some ((total : ℚ) / elapsed) := by
  have hlat : (run_stats total rs).latencies.length
      = (run_stats total rs).successful_requests := by
    simpa [run_stats] using run_units_latencies rs
  refine ⟨?_, ?_, ?_⟩
  · simp [rps_duration_report, he, run_stats]
  · simp only [rps_count_report_lt, if_neg hne, hlat]
  · have hne' : ¬(run_units rs).latencies = [] := by
      simpa [run_stats] using hne
    simp [rps_count_report_lc, hne', run_stats]

/-- Witness for the amended claim C1 at a one-unit run. -/
theorem c1_witness :
    rps_duration_report (run_stats 5 [RetryResult.succeeded 1 [] 1]) 1 = (5 : ℚ) / 1 ∧
    rps_count_report_lt (run_stats 5 [RetryResult.succeeded 1 [] 1]) 1
      = some (((run_stats 5 [RetryResult.succeeded 1 [] 1]).successful_requests : ℚ) / 1) ∧
    rps_count_report_lc (run_stats 5 [RetryResult.succeeded 1 [] 1]) 1
      = some ((5 : ℚ) / 1) :=
  c1_amended 5 [RetryResult.succeeded 1 [] 1] 1 (by norm_num) (by decide)

/-- Claim C2 counterexample: the count-mode run of load_client.py with
num_calls = 1 that completes with its single unit succeeding ends with
stats[total_requests] = 5 (each admitted unit adds REQUESTS_PER_CALL = 5)
while successful + failed = 1, so total_dispatched does not equal the
target request count of 1. -/
theorem c2_counterexample :
    lc_count_driver 1 3 [] = some ⟨5, 1⟩ ∧
    (run_units [RetryResult.succeeded 1 [] 1]).successful_requests
      + (run_units [RetryResult.succeeded 1 [] 1]).failed_requests = 1 ∧
    (5 : Nat) ≠ 1 := by
  refine ⟨rfl, rfl, by omega⟩

/-- Claim C2 (amended): for every count-mode run of load_test.py that
runs to completion with num_requests >= 1 and concurrency >= 1,
total_requests equals num_requests exactly; for every such run of
load_client.py, total_requests equals num_calls * 5 (each admitted unit
contributes REQUESTS_PER_CALL = 5); and in every run each finished unit
of work is counted exactly once, so successful + failed equals the
number of finished units. -/
theorem c2_amended :
    (∀ num c ds s', 1 ≤ num → 1 ≤ c →
      lt_count_driver num c ds = some s' → s'.total = num) ∧
    (∀ num_calls c ds s', 1 ≤ num_calls → 1 ≤ c →
      lc_count_driver num_calls c ds = some s' → s'.total = num_calls * 5) ∧
    (∀ rs : List RetryResult,
      (run_units rs).successful_requests + (run_units rs).failed_requests
        = rs.length) := by
  refine ⟨?_, ?_, run_units_counts⟩
  · intro num c ds s' hnum hc heq
    have hinit := initial_batch_loop_spec num 1 (by omega) (one_dvd num)
      (min (c * 2) num) ⟨0, 0⟩ (dvd_zero 1) (Nat.zero_le num)
    refine replace_loop_total num 1 (by omega) (one_dvd num) ds _
      hinit.1 hinit.2.1 ?_ s' heq
    intro _
    have hn : 0 < min (c * 2) num := by omega
    have := hinit.2.2.2 hn (show (⟨0, 0⟩ : DriverState).total < num by
      simpa using hnum)
    omega
  · intro num_calls c ds s' hnum hc heq
    have hdvd : (5 : Nat) ∣ num_calls * 5 := ⟨num_calls, by ring⟩
    have hinit := initial_batch_loop_spec (num_calls * 5) 5 (by omega) hdvd
      (min (c * 2) num_calls) ⟨0, 0⟩ (dvd_zero 5) (Nat.zero_le (num_calls * 5))
    refine replace_loop_total (num_calls * 5) 5 (by omega) hdvd ds _
      hinit.1 hinit.2.1 ?_ s' heq
    intro _
    have hn : 0 < min (c * 2) num_calls := by omega
    have := hinit.2.2.2 hn (show (⟨0, 0⟩ : DriverState).total < num_calls * 5 by
      simp; omega)
    omega

/-- Witness for the amended claim C2 at concrete completed runs. -/
theorem c2_witness :
    (⟨2, 2⟩ : DriverState).total = 2 ∧
    (⟨5, 1⟩ : DriverState).total = 1 * 5 ∧
    (run_units []).successful_requests + (run_units []).failed_requests
      = ([] : List RetryResult).length :=
  ⟨c2_amended.1 2 1 [] ⟨2, 2⟩ (by omega) (by omega) rfl,
   c2_amended.2.1 1 1 [] ⟨5, 1⟩ (by omega) (by omega) rfl,
   c2_amended.2.2 []⟩

/-- Claim C3: a unit of work whose executor fails exactly k times and
then succeeds, with k <= max_retries, terminates in Succeeded after
exactly k backoff sleeps of durations 0.1 * 2 ^ i seconds for
i = 0 .. k - 1; a unit whose executor fails on every attempt terminates
in Exhausted after exactly max_retries + 1 executor invocations. -/
theorem c3_retry_policy :
    (∀ (call : Nat → Except String ℚ) (max_retries k : Nat) (lat : ℚ)
        (errs : Nat → String),
      k ≤ max_retries →
      (∀ i, i < k → call i = Except.error (errs i)) →
      call k = Except.ok lat →
      retry_loop call max_retries 0 none []
        = RetryResult.succeeded lat (backoff_seq 0 k) (k + 1) ∧
      (backoff_seq 0 k).length = k ∧
      (∀ j, j < k → (backoff_seq 0 k).getD j 0 = (1 / 10 : ℚ) * 2 ^ j)) ∧
    (∀ (call : Nat → Except String ℚ) (max_retries : Nat) (errs : Nat → String),
      (∀ i, i ≤ max_retries → call i = Except.error (errs i)) →
      retry_loop call max_retries 0 none []
        = RetryResult.exhausted (some (errs max_retries))
            (backoff_seq 0 max_retries) (max_retries + 1)) := by
  constructor
  · intro call m k lat errs hk hf hs
    refine ⟨?_, backoff_seq_length k 0, ?_⟩
    · have := retry_loop_succeeds_from call m k lat errs hk hf hs k 0 none []
        (by omega) (by omega)
      simpa using this
    · intro j hj
      simpa using backoff_seq_getD k 0 j hj
  · intro call m errs hf
    have := retry_loop_exhausts_from call m errs hf m 0 none [] (by omega) (by omega)
    simpa using this

/-- Witness for claim C3: an executor failing twice then succeeding with
max_retries = 3, and an executor failing always with max_retries = 1. -/
theorem c3_witness :
    retry_loop (fun i => if i < 2 then Except.error "TimeoutError" else Except.ok 1)
        3 0 none []
      = RetryResult.succeeded 1 (backoff_seq 0 2) 3 ∧
    (backoff_seq 0 2).length = 2 ∧
    (backoff_seq 0 2).getD 0 0 = (1 / 10 : ℚ) * 2 ^ (0 : Nat) ∧
    (backoff_seq 0 2).getD 1 0 = (1 / 10 : ℚ) * 2 ^ (1 : Nat) ∧
    retry_loop (fun _ => Except.error "RuntimeError") 1 0 none []
      = RetryResult.exhausted (some "RuntimeError") (backoff_seq 0 1) 2 := by
  have h1 := c3_retry_policy.1
    (fun i => if i < 2 then Except.error "TimeoutError" else Except.ok 1)
    3 2 1 (fun _ => "TimeoutError") (by omega)
    (fun i hi => by simp [hi]) (by norm_num)
  exact ⟨h1.1, h1.2.1, h1.2.2 0 (by omega), h1.2.2 1 (by omega),
    c3_retry_policy.2 (fun _ => Except.error "RuntimeError") 1
      (fun _ => "RuntimeError") (fun i _ => rfl)⟩

/-- Claim C4: at every instant of every run, the active_requests
counter of a state reachable under the semaphore discipline is at most
max_concurrency, and so is the running max_concurrent maximum read at
run end. -/
theorem c4_active_le_max_concurrency (max_concurrency : Nat) (s : SemState)
    (h : SemReachable max_concurrency s) :
    s.active ≤ max_concurrency ∧ s.maxc ≤ max_concurrency := by
  have key : s.avail + s.active ≤ max_concurrency ∧ s.maxc ≤ max_concurrency := by
    induction h with
    | refl => simp
    | tail _ hstep ih =>
      cases hstep with
      | enter avail active maxc hp =>
        simp only at ih ⊢
        refine ⟨by omega, ?_⟩
        exact Nat.max_le.mpr ⟨ih.2, by omega⟩
      | leave avail active maxc hp =>
        simp only at ih ⊢
        exact ⟨by omega, ih.2⟩
      | cancelDec avail active maxc =>
        simp only at ih ⊢
        exact ⟨by omega, ih.2⟩
  exact ⟨by omega, key.2⟩

/-- Witness for claim C4: the state after one acquisition with
max_concurrency = 1. -/
theorem c4_witness :
    (⟨0, 1, 1⟩ : SemState).active ≤ 1 ∧ (⟨0, 1, 1⟩ : SemState).maxc ≤ 1 :=
  c4_active_le_max_concurrency 1 ⟨0, 1, 1⟩
    (Relation.ReflTransGen.single (SemStep.enter 1 0 0 (by omega)))

/-- Claim C5: in src/load_test.py a unit of work that exhausts its
retries is folded into the stats as one more failed request with the
error count of the last error class bumped, and make_request returns
(rather than raises) in that case; but in src/load_client.py, load_test,
the unconditional raise on line 244 propagates the very first exception
out of make_request, so no retry and no failure bookkeeping happens
there.  Evaluations at an executor whose every attempt raises
RuntimeError, with max_retries = 3. -/
theorem c5_exhaustion_divergence :
    retry_loop_lc (fun _ => Except.error "RuntimeError") 3
      = Except.error "RuntimeError" ∧
    retry_loop (fun _ => Except.error "RuntimeError") 3 0 none []
      = RetryResult.exhausted (some "RuntimeError") (backoff_seq 0 3) 4 ∧
    (apply_result stats_init
      (RetryResult.exhausted (some "RuntimeError") (backoff_seq 0 3) 4)).failed_requests
      = 1 ∧
    ecGet (apply_result stats_init
      (RetryResult.exhausted (some "RuntimeError") (backoff_seq 0 3) 4)).error_counts
      "RuntimeError" = 1 := by
  refine ⟨rfl, ?_, rfl, by decide⟩
  have := retry_loop_exhausts_from (fun _ => Except.error "RuntimeError") 3
    (fun _ => "RuntimeError") (fun _ _ => rfl) 3 0 none [] (by omega) (by omega)
  simpa using this

/-- Latencies of length 10 on which the duration-mode report prints a
p99 value although the sample has fewer than 100 entries. -/
def c6_demo_lats : List ℚ := [1, 2, 3, 4, 5, 6, 7, 8, 9, 10]

/-- Claim C6 counterexample: the duration-mode report
(test_requests_per_second) computes and prints p99 for any sample of at
least 10 latencies; on a sorted 10-element sample it reports
p99 = element 9 = 10, although N = 10 < 100, where the claim demands
p99 be omitted or zero. -/
theorem c6_counterexample :
    percentile_report_duration c6_demo_lats = some (6, 10, 10) ∧
    c6_demo_lats.length = 10 ∧ (10 : Nat) < 100 := by
  refine ⟨by decide, rfl, by omega⟩

/-- Claim C6 (amended): the count-mode reports sort the latencies
ascending and index at floor(N * p) for p50 and p95 whenever N >= 1,
with p99 likewise but zero (and then omitted) unless N >= 100; the
duration-mode report prints percentiles only when N >= 10 and then
computes p50, p95 and p99 all by the floor(N * p) rule with no
further guard on p99. -/
theorem c6_amended :
    (∀ lats : List ℚ, lats ≠ [] →
      percentile_report_count lats
        = some (percentile_spec_floor lats 50 100, percentile_spec_floor lats 95 100,
            if 100 ≤ lats.length then percentile_spec_floor lats 99 100 else 0)) ∧
    (∀ lats : List ℚ, 10 ≤ lats.length →
      percentile_report_duration lats
        = some (percentile_spec_floor lats 50 100, percentile_spec_floor lats 95 100,
            percentile_spec_floor lats 99 100)) ∧
    (∀ lats : List ℚ, lats.length < 10 →
      percentile_report_duration lats = none) := by
  have hspec : ∀ (lats : List ℚ) (num : Nat),
      percentile_spec_floor lats num 100
        = (sortedLats lats).getD (lats.length * num / 100) 0 := by
    intro lats num
    unfold percentile_spec_floor
    rw [floor_mul_ratio lats.length num 100 (by omega)]
  have h50 : ∀ N : Nat, N / 2 = N * 50 / 100 := by intro N; omega
  refine ⟨?_, ?_, ?_⟩
  · intro lats hne
    simp only [percentile_report_count, if_neg hne, sortedLats_length,
      hspec lats 50, hspec lats 95, hspec lats 99, h50 lats.length]
  · intro lats hlen
    simp only [percentile_report_duration, if_pos hlen, sortedLats_length,
      hspec lats 50, hspec lats 95, hspec lats 99, h50 lats.length]
  · intro lats hlen
    simp only [percentile_report_duration, if_neg (by omega : ¬10 ≤ lats.length)]

/-- Witness for the amended claim C6 at concrete samples of sizes 1 and 10. -/
theorem c6_witness :
    percentile_report_count [(1 : ℚ)]
      = some (percentile_spec_floor [(1 : ℚ)] 50 100,
          percentile_spec_floor [(1 : ℚ)] 95 100,
          if 100 ≤ ([(1 : ℚ)] : List ℚ).length then
            percentile_spec_floor [(1 : ℚ)] 99 100
          else 0) ∧
    percentile_report_duration c6_demo_lats
      = some (percentile_spec_floor c6_demo_lats 50 100,
          percentile_spec_floor c6_demo_lats 95 100,
          percentile_spec_floor c6_demo_lats 99 100) ∧
    percentile_report_duration [(1 : ℚ)] = none :=
  ⟨c6_amended.1 [(1 : ℚ)] (by decide), c6_amended.2.1 c6_demo_lats (by decide),
   c6_amended.2.2 [(1 : ℚ)] (by decide)⟩

/-- Claim C7 counterexample: the loader neither guarantees a non-empty
pool nor never raises.  A file holding the expected key with an empty
array yields the empty pool unchanged, and a file whose valid JSON top
level is not an object (e.g. the array []) makes the uncaught subscript
TypeError escape the loader. -/
theorem c7_counterexample :
    load_query_pool (QuerySource.present [])
      = Except.ok (PoolValue.list [], false) ∧
    load_query_pool QuerySource.nonObjectJson = Except.error "TypeError" :=
  ⟨rfl, rfl⟩

/-- Claim C7 (amended): the loader catches exactly FileNotFoundError,
JSONDecodeError and KeyError — a missing file, invalid JSON, or a JSON
object lacking the expected key — and in those three cases returns the
synthetic fallback pool of exactly 100 deterministic placeholder
strings with a non-fatal warning; on a readable file whose valid JSON
top level is not an object the subscript raises an uncaught TypeError,
and other read errors (IsADirectoryError, UnicodeDecodeError, ...)
propagate uncaught as well; when the key is present the loader returns
its value unchanged, which may be an empty array or not an array at
all. -/
theorem c7_amended :
    load_query_pool QuerySource.missing
      = Except.ok (PoolValue.list fallback_pool, true) ∧
    load_query_pool QuerySource.invalidJson
      = Except.ok (PoolValue.list fallback_pool, true) ∧
    load_query_pool QuerySource.missingKey
      = Except.ok (PoolValue.list fallback_pool, true) ∧
    fallback_pool.length = 100 ∧
    fallback_pool ≠ [] ∧
    load_query_pool QuerySource.nonObjectJson = Except.error "TypeError" ∧
    (∀ err, load_query_pool (QuerySource.unreadable err) = Except.error err) ∧
    (∀ v, load_query_pool (QuerySource.presentNonList v)
      = Except.ok (PoolValue.other v, false)) ∧
    (∀ qs, load_query_pool (QuerySource.present qs)
      = Except.ok (PoolValue.list qs, false)) := by
  refine ⟨rfl, rfl, rfl, ?_, ?_, rfl, fun err => rfl, fun v => rfl, fun qs => rfl⟩
  · simp [fallback_pool]
  · simp [fallback_pool]

/-- Claim C8 counterexample: the success-rate line guards on
total_requests > 0, not on the denominator.  After one admission tick
in which no task completes, total_requests = 5 while
successful + failed = 0, and the report evaluates the division with a
zero denominator (ZeroDivisionError) instead of printing the
no-requests text. -/
theorem c8_counterexample :
    (duration_drive 3 1).1.total_requests = 5 ∧
    (duration_drive 3 1).1.successful_requests
      + (duration_drive 3 1).1.failed_requests = 0 ∧
    success_rate_report (duration_drive 3 1).1 = RateReport.divisionByZero ∧
    RateReport.divisionByZero ≠ RateReport.noRequests := by
  refine ⟨rfl, rfl, by decide, by decide⟩

/-- Claim C8 (amended): the report prints the no-requests text exactly
when total_requests = 0; when total_requests > 0 it evaluates
successful / (successful + failed) regardless, which divides by zero
whenever no unit has completed, and otherwise yields the success rate. -/
theorem c8_amended (s : Stats) :
    (s.total_requests = 0 → success_rate_report s = RateReport.noRequests) ∧
    (0 < s.total_requests → s.successful_requests + s.failed_requests = 0 →
      success_rate_report s = RateReport.divisionByZero) ∧
    (0 < s.total_requests → 0 < s.successful_requests + s.failed_requests →
      success_rate_report s
        = RateReport.rate ((s.successful_requests : ℚ)
            / ((s.successful_requests : ℚ) + (s.failed_requests : ℚ)))) := by
  refine ⟨?_, ?_, ?_⟩
  · intro h
    simp [success_rate_report, h]
  · intro h1 h2
    unfold success_rate_report
    rw [if_pos h1, if_pos h2]
  · intro h1 h2
    unfold success_rate_report
    rw [if_pos h1, if_neg (by omega)]

/-- Witness for the amended claim C8 at three concrete stats states. -/
theorem c8_witness :
    success_rate_report stats_init = RateReport.noRequests ∧
    success_rate_report { stats_init with total_requests := 5 }
      = RateReport.divisionByZero ∧
    success_rate_report
        { stats_init with total_requests := 5, successful_requests := 1 }
      = RateReport.rate ((1 : ℚ) / ((1 : ℚ) + (0 : ℚ))) :=
  ⟨(c8_amended stats_init).1 rfl,
   (c8_amended { stats_init with total_requests := 5 }).2.1 (by decide) rfl,
   (c8_amended { stats_init with total_requests := 5, successful_requests := 1 }).2.2
     (by decide) (by decide)⟩

/-- Claim C9 counterexample: a count-mode run configured with
concurrency = 0 signals no error at all — 0 is falsy, so the effective
concurrency silently becomes min(num_requests, 100) = 10 and the run
dispatches all 10 units. -/
theorem c9_counterexample :
    load_test_config (some 0) 10 = Except.ok 10 ∧
    load_test_run (some 0) 10 [] = Except.ok (some ⟨10, 10⟩) ∧
    (10 : Nat) ≠ 0 := by
  refine ⟨rfl, rfl, by omega⟩

/-- Claim C9 (amended): only a negative max_concurrency fails fast —
asyncio.Semaphore raises ValueError during configuration, before any
unit of work is dispatched; max_concurrency = 0 raises nothing, because
count mode treats 0 as unsupplied (falling back to min(num, 100)) and
asyncio.Semaphore accepts the value 0. -/
theorem c9_amended :
    (∀ v : Int, v < 0 → ∀ num : Int,
      load_test_config (some v) num = Except.error "ValueError") ∧
    (∀ v : Int, v < 0 → ∀ (num : Nat) (ds : List Nat),
      load_test_run (some v) num ds = Except.error "ValueError") ∧
    semaphore_make 0 = Except.ok () := by
  have hcfg : ∀ v : Int, v < 0 → ∀ num : Int,
      load_test_config (some v) num = Except.error "ValueError" := by
    intro v hv num
    have hv0 : v ≠ 0 := by omega
    have h1 : effective_concurrency (some v) num = v := by
      simp only [effective_concurrency, if_neg hv0]
      omega
    simp [load_test_config, semaphore_make, h1, hv]
  refine ⟨hcfg, ?_, rfl⟩
  intro v hv num ds
  simp [load_test_run, hcfg v hv]

/-- Witness for the amended claim C9 at concurrency = -5. -/
theorem c9_witness :
    load_test_config (some (-5)) 2000 = Except.error "ValueError" ∧
    load_test_run (some (-5)) 2000 [] = Except.error "ValueError" ∧
    semaphore_make 0 = Except.ok () :=
  ⟨c9_amended.1 (-5) (by norm_num) 2000,
   c9_amended.2.1 (-5) (by norm_num) 2000 [],
   c9_amended.2.2⟩

/-- Claim C10: the count-mode effective concurrency is
min(requested, 100) for any truthy requested value; a missing value and
the falsy value 0 both silently default to min(num_requests, 100); and
any request above 100 is silently clamped to 100. -/
theorem c10_concurrency_clamp :
    (∀ v num : Int, v ≠ 0 →
      effective_concurrency (some v) num = min v 100) ∧
    (∀ num : Int, effective_concurrency none num = min num 100) ∧
    (∀ num : Int, effective_concurrency (some 0) num = min num 100) ∧
    (∀ v num : Int, 100 < v → effective_concurrency (some v) num = 100) := by
  refine ⟨?_, fun num => rfl, fun num => rfl, ?_⟩
  · intro v num hv
    simp only [effective_concurrency, if_neg hv]
  · intro v num hv
    have hv0 : v ≠ 0 := by omega
    simp only [effective_concurrency, if_neg hv0]
    omega

/-- Witness for claim C10 at requested = 250 and num_requests = 2000. -/
theorem c10_witness :
    effective_concurrency (some 250) 2000 = min 250 100 ∧
    effective_concurrency none 2000 = min 2000 100 ∧
    effective_concurrency (some 0) 2000 = min 2000 100 ∧
    effective_concurrency (some 250) 2000 = 100 :=
  ⟨c10_concurrency_clamp.1 250 2000 (by norm_num),
   c10_concurrency_clamp.2.1 2000,
   c10_concurrency_clamp.2.2.1 2000,
   c10_concurrency_clamp.2.2.2 250 2000 (by norm_num)⟩
